import Mathlib

/-!
Shallow embedding of the BUCKS-main ingestion pipeline:
`cnn_news_scraper_v2.py` (feed polling, freshness filtering, idempotent
persistence into the `articles` table) and `news_impact_analyzer_v3.py`
(time-windowed read of the store and keyword bucketing per ticker).

Modelling conventions:
* Instants are `Int` seconds since the Unix epoch, UTC.  The Python code
  normalises every timestamp to `timezone.utc` before use, so a single
  integer captures the instant; feed timestamps are second-granular
  (`datetime(*ts[:6])` truncates to seconds).
* The SQLite table `articles` is a `List Row` in insertion order (the
  store's natural read order).  `INSERT` appends, the duplicate check is
  `SELECT 1 ... WHERE id = ?`, and the analyzer's `WHERE published >= ?`
  is a lexicographic byte comparison of TEXT values (both sides are
  ASCII, so codepoint order coincides with SQLite's BINARY collation).
* `hashlib.sha256(link).hexdigest()` is external library code; it is
  modelled as an arbitrary function parameter `sha : String → String`
  (the claims need only that it is a function of the link).
* The two `datetime.now(tz=utc)` calls inside one `store_entry` run are
  modelled as the same instant `now`, passed in explicitly.
-/

/-- Two-digit zero padding, as `datetime.isoformat`/`strftime` print it. -/
def pad2 (n : Nat) : String :=
  if n < 10 then "0" ++ toString n else toString n

/-- Four-digit zero padding for the year field. -/
def pad4 (n : Nat) : String :=
  if n < 10 then "000" ++ toString n
  else if n < 100 then "00" ++ toString n
  else if n < 1000 then "0" ++ toString n
  else toString n

/-- Gregorian civil date (year, month, day) from days since 1970-01-01. -/
def civilFromDays (days : Nat) : Nat × Nat × Nat :=
  let z := days + 719468
  let era := z / 146097
  let doe := z % 146097
  let yoe := (doe - doe / 1460 + doe / 36524 - doe / 146096) / 365
  let y := yoe + era * 400
  let doy := doe - (365 * yoe + yoe / 4 - yoe / 100)
  let mp := (5 * doy + 2) / 153
  let d := doy - (153 * mp + 2) / 5 + 1
  let m := if mp < 10 then mp + 3 else mp - 9
  (if m ≤ 2 then y + 1 else y, m, d)

/-- Model of `datetime.isoformat(sep)` for a UTC instant with no microseconds:
`YYYY-MM-DD{sep}HH:MM:SS+00:00`.  The scraper stores with `sep = "T"`
(the default), the analyzer queries with `sep = " "`. -/
def isoformat (sep : String) (t : Int) : String :=
  let n := t.toNat
  let (y, m, d) := civilFromDays (n / 86400)
  let sod := n % 86400
  pad4 y ++ "-" ++ pad2 m ++ "-" ++ pad2 d ++ sep ++
    pad2 (sod / 3600) ++ ":" ++ pad2 (sod % 3600 / 60) ++ ":" ++
    pad2 (sod % 60) ++ "+00:00"

/-- A raw feed item as `feedparser` hands it to the scraper: `link` is a
required attribute (`entry.link`); the rest are optional dict entries
(`entry.get(...)`).  The parsed time structs are modelled by their UTC
instant. -/
structure Entry where
  link : String
  title : Option String := none
  summary : Option String := none
  published_parsed : Option Int := none
  updated_parsed : Option Int := none
deriving DecidableEq

/-- One row of the `articles` table.  `title` and `summary` are `Option`
because the SQL layer can hand back NULL (the analyzer defends with
`row[i] or ""`); the scraper itself always writes strings. -/
structure Row where
  id : String
  title : Option String
  link : String
  published : String
  summary : Option String
  feed : String
deriving DecidableEq

/-- Source constant `MAX_AGE_HOURS = 24  # ignore articles older than this`. -/
def MAX_AGE_HOURS : Int := 24

/-- The fixed CNN feed list polled every cycle. -/
def FEEDS : List String :=
  [ "http://rss.cnn.com/rss/cnn_topstories.rss",
    "http://rss.cnn.com/rss/cnn_world.rss",
    "http://rss.cnn.com/rss/cnn_us.rss",
    "http://rss.cnn.com/rss/cnn_allpolitics.rss",
    "http://rss.cnn.com/rss/cnn_tech.rss",
    "http://rss.cnn.com/rss/cnn_health.rss",
    "http://rss.cnn.com/rss/cnn_showbiz.rss" ]

/-- Source `parse_datetime`: the entry's `published_parsed` if present, else
`updated_parsed` if present, else `datetime.now(tz=utc)` (the `now`
argument). -/
def parse_datetime (now : Int) (e : Entry) : Int :=
  match e.published_parsed with
  | some ts => ts
  | none =>
    match e.updated_parsed with
    | some ts => ts
    | none => now

section Scraper

variable (sha : String → String)

/-- Source `article_id`: SHA-256 hex digest of the link (digest abstracted as
the parameter `sha`). -/
def article_id (link : String) : String := sha link

/-- Source `store_entry`: duplicate check by fingerprint, then freshness check
(`published_dt < now - timedelta(hours=MAX_AGE_HOURS)` rejects), then
INSERT and commit.  Returns the updated table and the bool result. -/
def store_entry (now : Int) (db : List Row) (feed_url : String) (e : Entry) :
    List Row × Bool :=
  let aid := article_id sha e.link
  if db.any (fun r => r.id == aid) then (db, false)
  else
    let published_dt := parse_datetime now e
    if published_dt < now - MAX_AGE_HOURS * 3600 then (db, false)
    else
      (db ++ [{ id := aid, title := some (e.title.getD ""), link := e.link,
                published := isoformat "T" published_dt,
                summary := some (e.summary.getD ""), feed := feed_url }],
       true)

/-- Source `fetch_feed`: `feedparser.parse(feed_url)` is the environment `env`
(on a fetch failure feedparser raises nothing and yields an empty
`entries` list); then `sum(store_entry(...) for e in entries)`. -/
def fetch_feed (env : String → List Entry) (now : Int) (db : List Row)
    (feed_url : String) : List Row × Nat :=
  (env feed_url).foldl
    (fun acc e =>
      let r := store_entry sha now acc.1 feed_url e
      (r.1, acc.2 + (if r.2 then 1 else 0)))
    (db, 0)

/-- One cycle of `poll_loop`: `asyncio.gather` over all feed urls.  The
per-feed coroutines interleave only at database awaits serialised on the
single connection; the cycle is modelled as the in-order interleaving. -/
def run_cycle (env : String → List Entry) (now : Int) (db : List Row)
    (urls : List String) : List Row × Nat :=
  urls.foldl
    (fun acc url =>
      let r := fetch_feed sha env now acc.1 url
      (r.1, acc.2 + r.2))
    (db, 0)

/-- Source `poll_loop`, unrolled for a given number of cycles: every cycle runs
`run_cycle` over the constant `FEEDS` list (cycle `k` sees fetch
environment `envs k` and clock `nows k`). -/
def poll_cycles (envs : Nat → String → List Entry) (nows : Nat → Int) :
    Nat → List Row → List Row
  | 0, db => db
  | k + 1, db =>
    poll_cycles (fun i => envs (i + 1)) (fun i => nows (i + 1)) k
      (run_cycle sha (envs 0) (nows 0) db FEEDS).1

end Scraper

/-- Error `StorageError`: the store is unavailable, i.e. an `aiosqlite`
operation raised an I/O error. -/
inductive StorageError where
  | ioFailure
deriving DecidableEq

section ScraperFaults

variable (sha : String → String)

/-- Source `store_entry` under a storage-fault environment: `fault aid = true`
means the `INSERT` for that fingerprint raises.  The source has no
`try`/`except`, so the exception is the `Except.error` result. -/
def store_entry_f (fault : String → Bool) (now : Int) (db : List Row)
    (feed_url : String) (e : Entry) : Except StorageError (List Row × Bool) :=
  let aid := article_id sha e.link
  if db.any (fun r => r.id == aid) then .ok (db, false)
  else
    let published_dt := parse_datetime now e
    if published_dt < now - MAX_AGE_HOURS * 3600 then .ok (db, false)
    else if fault aid then .error StorageError.ioFailure
    else
      .ok (db ++ [{ id := aid, title := some (e.title.getD ""), link := e.link,
                    published := isoformat "T" published_dt,
                    summary := some (e.summary.getD ""), feed := feed_url }],
           true)

/-- Source `fetch_feed` under the fault environment: the list comprehension
`[await store_entry(...) for e in entries]` propagates the first
exception, abandoning the remaining entries. -/
def fetch_feed_f (fault : String → Bool) (env : String → List Entry)
    (now : Int) (db : List Row) (feed_url : String) :
    Except StorageError (List Row × Nat) :=
  (env feed_url).foldlM
    (fun acc e => do
      let r ← store_entry_f sha fault now acc.1 feed_url e
      pure (r.1, acc.2 + (if r.2 then 1 else 0)))
    (db, 0)

/-- One cycle under the fault environment: `asyncio.gather` (default
`return_exceptions=False`) re-raises the first feed exception into
`poll_loop`, which has no handler, so the cycle and the loop abort. -/
def run_cycle_f (fault : String → Bool) (env : String → List Entry)
    (now : Int) (db : List Row) (urls : List String) :
    Except StorageError (List Row × Nat) :=
  urls.foldlM
    (fun acc url => do
      let r ← fetch_feed_f sha fault env now acc.1 url
      pure (r.1, acc.2 + r.2))
    (db, 0)

end ScraperFaults

/-- An article as the analyzer's `fetch_recent_articles` returns it
(`published` kept as the stored ISO text; `dateutil` would parse it
back to the same instant). -/
structure ArticleRec where
  id : String
  title : String
  summary : String
  published : String
deriving DecidableEq

/-- Lexicographic comparison of character lists by codepoint — SQLite's
BINARY collation on ASCII TEXT values. -/
def lexLeChars : List Char → List Char → Bool
  | [], _ => true
  | _ :: _, [] => false
  | a :: as, b :: bs =>
    if a.toNat < b.toNat then true
    else if b.toNat < a.toNat then false
    else lexLeChars as bs

/-- Comparison `a <= b` as SQLite evaluates `?1 <= column` on TEXT operands. -/
def strLe (a b : String) : Bool := lexLeChars a.data b.data

/-- Source `fetch_recent_articles`: `SELECT id, title, summary, published FROM
articles WHERE published >= ?` with parameter `since.isoformat(" ")`,
then `row[i] or ""` normalisation of title and summary. -/
def fetch_recent_articles (db : List Row) (since : Int) : List ArticleRec :=
  (db.filter (fun r => strLe (isoformat " " since) r.published)).map
    (fun r => { id := r.id, title := r.title.getD "",
                summary := r.summary.getD "", published := r.published })

/-- Python `str.lower()` (per-character lowercasing). -/
def pyLower (s : String) : String := ⟨s.data.map Char.toLower⟩

/-- Python's substring containment `needle in hay`. -/
def containsSub : List Char → List Char → Bool
  | needle, [] => needle.isEmpty
  | needle, c :: rest => needle.isPrefixOf (c :: rest) || containsSub needle rest

/-- The text an article is matched against:
`f"{art['title']} {art['summary']}".lower()`. -/
def match_text (a : ArticleRec) : String := pyLower (a.title ++ " " ++ a.summary)

/-- Test `alias.lower() in text` for one alias. -/
def aliasMatches (al : String) (a : ArticleRec) : Bool :=
  containsSub (pyLower al).data (match_text a).data

/-- Test `any(alias.lower() in text for alias in aliases)`. -/
def anyAliasMatches (aliases : List String) (a : ArticleRec) : Bool :=
  aliases.any (fun al => aliasMatches al a)

/-- The inner loop of `main`'s bucketing pass: append one article to
every ticker's bucket whose alias set matches it (buckets run parallel
to the `TICKERS` key order). -/
def bucketStep (tickers : List (String × List String))
    (bks : List (String × List ArticleRec)) (art : ArticleRec) :
    List (String × List ArticleRec) :=
  List.zipWith
    (fun bk (p : String × List String) =>
      if anyAliasMatches p.2 art then (bk.1, bk.2 ++ [art]) else bk)
    bks tickers

/-- The bucketing loop of `main`: start every ticker with an empty list,
then for each article append it to every ticker whose alias set
matches. -/
def buildBuckets (tickers : List (String × List String))
    (articles : List ArticleRec) : List (String × List ArticleRec) :=
  articles.foldl (bucketStep tickers)
    (tickers.map (fun p => (p.1, ([] : List ArticleRec))))

/-- Source constant `MAX_ARTICLES_PER_TICKER = 8  # trim to stay under token limits`. -/
def MAX_ARTICLES_PER_TICKER : Nat := 8

/-- The slice `articles[:MAX_ARTICLES_PER_TICKER]` taken inside
`build_user_msg` (the constant is its only instantiation in the
source). -/
def articles_for_prompt (maxPerTopic : Nat) (articles : List ArticleRec) :
    List ArticleRec :=
  articles.take maxPerTopic

/-- Model of `dateutil.parser.parse(published).strftime("%Y-%m-%d %H:%M")` on a
stored `YYYY-MM-DDTHH:MM:SS+00:00` stamp. -/
def display_ts (s : String) : String :=
  s.take 10 ++ " " ++ (s.drop 11).take 5

/-- Source `build_user_msg`: the "no relevant articles" sentinel for an empty
bucket, else one line per article of the truncated prefix. -/
def build_user_msg (ticker : String) (articles : List ArticleRec) : String :=
  if articles.isEmpty then "Ticker: " ++ ticker ++ "\n\nNews:\n(no relevant articles)"
  else
    "Ticker: " ++ ticker ++ "\n\nNews:\n" ++ String.intercalate "\n"
      ((articles_for_prompt MAX_ARTICLES_PER_TICKER articles).map
        (fun art => "[" ++ display_ts art.published ++ "] " ++ art.title ++
          " — " ++ art.summary))

/-! ## Helper lemmas -/

/-- The row `store_entry` writes for an accepted entry. -/
def storedRow (sha : String → String) (now : Int) (feed_url : String)
    (e : Entry) : Row :=
  { id := article_id sha e.link, title := some (e.title.getD ""),
    link := e.link, published := isoformat "T" (parse_datetime now e),
    summary := some (e.summary.getD ""), feed := feed_url }

theorem store_entry_insert (sha : String → String) (now : Int) (db : List Row)
    (u : String) (e : Entry)
    (h1 : db.any (fun r => r.id == article_id sha e.link) = false)
    (h2 : ¬ parse_datetime now e < now - MAX_AGE_HOURS * 3600) :
    store_entry sha now db u e = (db ++ [storedRow sha now u e], true) := by
  simp [store_entry, storedRow, h1, h2]

theorem store_entry_dup (sha : String → String) (now : Int) (db : List Row)
    (u : String) (e : Entry)
    (h1 : db.any (fun r => r.id == article_id sha e.link) = true) :
    store_entry sha now db u e = (db, false) := by
  simp [store_entry, h1]

theorem store_entry_stale (sha : String → String) (now : Int) (db : List Row)
    (u : String) (e : Entry)
    (h1 : db.any (fun r => r.id == article_id sha e.link) = false)
    (h2 : parse_datetime now e < now - MAX_AGE_HOURS * 3600) :
    store_entry sha now db u e = (db, false) := by
  simp [store_entry, h1, h2]

/-! ## Claims -/

/-- Claim C1, Idempotent ingestion: for an entry whose first ingestion is
neither a duplicate nor stale, the first `store_entry` returns `true`,
a second `store_entry` of any entry with the same link returns `false`,
leaves the table unchanged, and the table holds exactly one row with
that link's fingerprint. -/
theorem store_entry_idempotent (sha : String → String) (now₁ now₂ : Int)
    (db : List Row) (u₁ u₂ : String) (e e₂ : Entry) (hlink : e₂.link = e.link)
    (h1 : db.any (fun r => r.id == article_id sha e.link) = false)
    (h2 : ¬ parse_datetime now₁ e < now₁ - MAX_AGE_HOURS * 3600) :
    (store_entry sha now₁ db u₁ e).2 = true ∧
    (store_entry sha now₂ (store_entry sha now₁ db u₁ e).1 u₂ e₂).2 = false ∧
    (store_entry sha now₂ (store_entry sha now₁ db u₁ e).1 u₂ e₂).1 =
      (store_entry sha now₁ db u₁ e).1 ∧
    ((store_entry sha now₂ (store_entry sha now₁ db u₁ e).1 u₂ e₂).1.filter
        (fun r => r.id == article_id sha e.link)).length = 1 := by
  have hfst := store_entry_insert sha now₁ db u₁ e h1 h2
  have hdup : ((db ++ [storedRow sha now₁ u₁ e]).any
      (fun r => r.id == article_id sha e₂.link)) = true := by
    rw [List.any_append, hlink, h1]
    simp [storedRow]
  have hsnd := store_entry_dup sha now₂ (db ++ [storedRow sha now₁ u₁ e]) u₂ e₂ hdup
  have hfilter : ((db ++ [storedRow sha now₁ u₁ e]).filter
      (fun r => r.id == article_id sha e.link)).length = 1 := by
    rw [List.filter_append]
    have hnil : db.filter (fun r => r.id == article_id sha e.link) = [] := by
      rw [List.filter_eq_nil_iff]
      intro a ha
      have := List.any_eq_false.mp h1 a ha
      simpa using this
    rw [hnil]
    simp [storedRow]
  rw [hfst]
  exact ⟨rfl, by rw [hsnd], by rw [hsnd], by rw [hsnd]; exact hfilter⟩

theorem store_entry_idempotent_witness :
    (store_entry (fun s => s) 86400 []
      "f" ⟨"https://x/a", some "t", some "s", some 86400, none⟩).2 = true ∧
    (store_entry (fun s => s) 90000 (store_entry (fun s => s) 86400 []
        "f" ⟨"https://x/a", some "t", some "s", some 86400, none⟩).1
      "f" ⟨"https://x/a", some "t", some "s", some 86400, none⟩).2 = false ∧
    (store_entry (fun s => s) 90000 (store_entry (fun s => s) 86400 []
        "f" ⟨"https://x/a", some "t", some "s", some 86400, none⟩).1
      "f" ⟨"https://x/a", some "t", some "s", some 86400, none⟩).1 =
      (store_entry (fun s => s) 86400 []
        "f" ⟨"https://x/a", some "t", some "s", some 86400, none⟩).1 ∧
    ((store_entry (fun s => s) 90000 (store_entry (fun s => s) 86400 []
        "f" ⟨"https://x/a", some "t", some "s", some 86400, none⟩).1
      "f" ⟨"https://x/a", some "t", some "s", some 86400, none⟩).1.filter
        (fun r => r.id == article_id (fun s => s) "https://x/a")).length = 1 :=
  store_entry_idempotent (fun s => s) 86400 90000 [] "f" "f"
    ⟨"https://x/a", some "t", some "s", some 86400, none⟩
    ⟨"https://x/a", some "t", some "s", some 86400, none⟩
    rfl (by decide) (by decide)

/-- Claim C2, Freshness boundary inclusivity: for a non-duplicate entry,
`store_entry` accepts iff the resolved timestamp is at least
`now - MAX_AGE_HOURS` hours; the window is 24 hours (86400 s), the
boundary instant itself is accepted, one second earlier is rejected,
and there is no upper bound (future instants satisfy the inequality). -/
theorem freshness_boundary (sha : String → String) (now : Int) (db : List Row)
    (u : String) (e : Entry)
    (h1 : db.any (fun r => r.id == article_id sha e.link) = false) :
    ((store_entry sha now db u e).2 = true ↔
      now - MAX_AGE_HOURS * 3600 ≤ parse_datetime now e) ∧
    MAX_AGE_HOURS * 3600 = 86400 := by
  constructor
  · by_cases h2 : parse_datetime now e < now - MAX_AGE_HOURS * 3600
    · rw [store_entry_stale sha now db u e h1 h2]
      constructor
      · intro h; exact absurd h (by simp)
      · intro h; exact absurd h (not_le.mpr h2)
    · rw [store_entry_insert sha now db u e h1 h2]
      constructor
      · intro _; exact not_lt.mp h2
      · intro _; rfl
  · decide

theorem freshness_boundary_witness :
    ((store_entry (fun s => s) 1000000 []
        "f" ⟨"https://x/b", none, none, some 913600, none⟩).2 = true ↔
      1000000 - MAX_AGE_HOURS * 3600 ≤
        parse_datetime 1000000 ⟨"https://x/b", none, none, some 913600, none⟩) ∧
    MAX_AGE_HOURS * 3600 = 86400 :=
  freshness_boundary (fun s => s) 1000000 [] "f"
    ⟨"https://x/b", none, none, some 913600, none⟩ rfl

/-- Claim C3, Timestamp fallback order: `parse_datetime` returns the
`published_parsed` instant when present, else the `updated_parsed`
instant when present, else the current instant `now`. -/
theorem parse_datetime_fallback (now : Int) (e : Entry) :
    (∀ t, e.published_parsed = some t → parse_datetime now e = t) ∧
    (e.published_parsed = none →
      ∀ t, e.updated_parsed = some t → parse_datetime now e = t) ∧
    (e.published_parsed = none → e.updated_parsed = none →
      parse_datetime now e = now) := by
  refine ⟨?_, ?_, ?_⟩ <;> intros <;> simp [parse_datetime, *]

theorem parse_datetime_fallback_witness :
    parse_datetime 555 ⟨"https://x/c", none, none, none, some 42⟩ = 42 ∧
    parse_datetime 555 ⟨"https://x/d", none, none, none, none⟩ = 555 :=
  ⟨(parse_datetime_fallback 555 ⟨"https://x/c", none, none, none, some 42⟩).2.1
      rfl 42 rfl,
   (parse_datetime_fallback 555 ⟨"https://x/d", none, none, none, none⟩).2.2
      rfl rfl⟩

/-- Claim C4, `query_since` over-inclusion: the scraper stores
`published_dt.isoformat()` with separator `"T"`, the analyzer binds
`since.isoformat(" ")` with a space, and SQLite compares the two TEXT
values bytewise, where `'T' > ' '`.  An article published at
2025-01-02T00:00:00Z (instant 1735776000) is therefore returned for the
cutoff 2025-01-02 12:00:00Z (instant 1735819200) although its
`published_at` lies twelve hours **before** the cutoff — refuting the
claim that exactly the articles with `published_at >= since` are
returned. -/
theorem fetch_recent_same_day_overinclusion :
    (1735776000 : Int) < 1735819200 ∧
    isoformat "T" 1735776000 = "2025-01-02T00:00:00+00:00" ∧
    isoformat " " 1735819200 = "2025-01-02 12:00:00+00:00" ∧
    (fetch_recent_articles
        (store_entry (fun s => s) 1735776000 [] "feed"
          ⟨"https://x/a", some "T", some "S", some 1735776000, none⟩).1
        1735819200).map (fun a => a.id) = ["https://x/a"] :=
  ⟨by decide, rfl, rfl, rfl⟩

theorem store_entry_f_error (sha : String → String) (fault : String → Bool)
    (now : Int) (db : List Row) (u : String) (e : Entry)
    (hf : fault (article_id sha e.link) = true)
    (h1 : db.any (fun r => r.id == article_id sha e.link) = false)
    (h2 : ¬ parse_datetime now e < now - MAX_AGE_HOURS * 3600) :
    store_entry_f sha fault now db u e = .error .ioFailure := by
  simp [store_entry_f, hf, h1, h2]

/-- Claim C5, counterexample. Per-item storage-error isolation fails: with
a two-item feed whose first item's `INSERT` raises, `fetch_feed`
propagates the exception (the second item is never processed) and the
cycle aborts, whereas without the fault both items are stored.  The
claim that "the remaining items of the same source are still processed
and the run loop does not abort" is false at this input. -/
theorem storage_error_not_isolated :
    fetch_feed_f (fun s => s) (fun a => a == "https://x/a")
      (fun _ => [⟨"https://x/a", none, none, some 0, none⟩,
                 ⟨"https://x/b", none, none, some 0, none⟩])
      0 [] "u" = .error .ioFailure ∧
    run_cycle_f (fun s => s) (fun a => a == "https://x/a")
      (fun _ => [⟨"https://x/a", none, none, some 0, none⟩,
                 ⟨"https://x/b", none, none, some 0, none⟩])
      0 [] ["u"] = .error .ioFailure ∧
    (fetch_feed_f (fun s => s) (fun _ => false)
        (fun _ => [⟨"https://x/a", none, none, some 0, none⟩,
                   ⟨"https://x/b", none, none, some 0, none⟩])
        0 [] "u").map (fun p => (p.1.map (fun r => r.id), p.2)) =
      .ok (["https://x/a", "https://x/b"], 2) :=
  ⟨rfl, rfl, rfl⟩

/-- Claim C5, amended. A storage failure while persisting an item is not
caught anywhere in the scraper: the exception from `store_entry`
propagates through `fetch_feed`'s comprehension and `asyncio.gather`
into `poll_loop`, so the remaining items of that source are not
processed and the cycle and run loop abort. -/
theorem storage_error_aborts_cycle (sha : String → String)
    (fault : String → Bool) (env : String → List Entry) (now : Int)
    (db : List Row) (u : String) (e : Entry) (rest : List Entry)
    (urls : List String)
    (hf : fault (article_id sha e.link) = true)
    (h1 : db.any (fun r => r.id == article_id sha e.link) = false)
    (h2 : ¬ parse_datetime now e < now - MAX_AGE_HOURS * 3600)
    (henv : env u = e :: rest) :
    fetch_feed_f sha fault env now db u = .error .ioFailure ∧
    run_cycle_f sha fault env now db (u :: urls) = .error .ioFailure := by
  have hse := store_entry_f_error sha fault now db u e hf h1 h2
  have hff : fetch_feed_f sha fault env now db u = .error .ioFailure := by
    unfold fetch_feed_f
    rw [henv, List.foldlM_cons]
    simp only [hse]
    rfl
  refine ⟨hff, ?_⟩
  unfold run_cycle_f
  rw [List.foldlM_cons]
  simp only [hff]
  rfl

theorem storage_error_aborts_cycle_witness :
    fetch_feed_f (fun s => s) (fun a => a == "https://y/a")
      (fun _ => [⟨"https://y/a", none, none, some 7, none⟩])
      7 [] "u" = .error .ioFailure ∧
    run_cycle_f (fun s => s) (fun a => a == "https://y/a")
      (fun _ => [⟨"https://y/a", none, none, some 7, none⟩])
      7 [] ["u", "v"] = .error .ioFailure :=
  storage_error_aborts_cycle (fun s => s) (fun a => a == "https://y/a")
    (fun _ => [⟨"https://y/a", none, none, some 7, none⟩])
    7 [] "u" ⟨"https://y/a", none, none, some 7, none⟩ [] ["v"]
    rfl rfl (by decide) rfl

/-- Claim C6, Fetch-failure isolation: `feedparser.parse` never raises into
the scheduler — a failed fetch yields an empty `entries` list — so a
cycle containing a failed source stores exactly what the same cycle
without that source would store (other sources unaffected, cycle total
function, no crash), and every subsequent cycle polls the full constant
`FEEDS` list again, the failed source included. -/
theorem fetch_failure_isolation (sha : String → String)
    (env : String → List Entry) (now : Int) (db : List Row)
    (us₁ us₂ : List String) (u : String) (hu : env u = []) :
    run_cycle sha env now db (us₁ ++ u :: us₂) =
      run_cycle sha env now db (us₁ ++ us₂) ∧
    (∀ (envs : Nat → String → List Entry) (nows : Nat → Int) (db₀ : List Row),
      poll_cycles sha envs nows 2 db₀ =
        (run_cycle sha (envs 1) (nows 1)
          (run_cycle sha (envs 0) (nows 0) db₀ FEEDS).1 FEEDS).1) := by
  constructor
  · simp [run_cycle, fetch_feed, hu, List.foldl_append]
  · intro envs nows db₀
    rfl

theorem fetch_failure_isolation_witness :
    run_cycle (fun s => s) (fun _ => []) 0 []
        (["a"] ++ "http://rss.cnn.com/rss/cnn_topstories.rss" :: ["b"]) =
      run_cycle (fun s => s) (fun _ => []) 0 [] (["a"] ++ ["b"]) ∧
    (∀ (envs : Nat → String → List Entry) (nows : Nat → Int) (db₀ : List Row),
      poll_cycles (fun s => s) envs nows 2 db₀ =
        (run_cycle (fun s => s) (envs 1) (nows 1)
          (run_cycle (fun s => s) (envs 0) (nows 0) db₀ FEEDS).1 FEEDS).1) :=
  fetch_failure_isolation (fun s => s) (fun _ => []) 0 [] ["a"] ["b"]
    "http://rss.cnn.com/rss/cnn_topstories.rss" rfl

theorem bucketStep_map (tickers : List (String × List String))
    (f : String × List String → List ArticleRec) (art : ArticleRec) :
    bucketStep tickers (tickers.map (fun p => (p.1, f p))) art =
      tickers.map (fun p =>
        (p.1, f p ++ if anyAliasMatches p.2 art then [art] else [])) := by
  unfold bucketStep
  induction tickers with
  | nil => rfl
  | cons t ts ih =>
    simp only [List.map_cons, List.zipWith_cons_cons]
    cases h : anyAliasMatches t.2 art <;> simp [h, ih]

theorem foldl_bucketStep (tickers : List (String × List String)) :
    ∀ (articles : List ArticleRec) (f : String × List String → List ArticleRec),
      articles.foldl (bucketStep tickers) (tickers.map (fun p => (p.1, f p))) =
        tickers.map (fun p =>
          (p.1, f p ++ articles.filter (fun a => anyAliasMatches p.2 a)))
  | [], f => by simp
  | a :: arts, f => by
    rw [List.foldl_cons, bucketStep_map tickers f a,
      foldl_bucketStep tickers arts
        (fun p => f p ++ if anyAliasMatches p.2 a then [a] else [])]
    apply congrArg (List.map · tickers)
    funext p
    cases h : anyAliasMatches p.2 a <;>
      simp [h, List.filter_cons, List.append_assoc]

theorem buildBuckets_eq (tickers : List (String × List String))
    (articles : List ArticleRec) :
    buildBuckets tickers articles =
      tickers.map (fun p =>
        (p.1, articles.filter (fun a => anyAliasMatches p.2 a))) := by
  unfold buildBuckets
  have h := foldl_bucketStep tickers articles (fun _ => [])
  simpa using h

/-- Claim C7, Bucketing containment: an article lands in the `i`-th
topic's bucket iff it is one of the fetched articles and some alias of
that topic occurs (case-insensitively, as a plain substring) in the
concatenation of its title and summary; zero, one, or many buckets may
contain it, since each topic is tested independently. -/
theorem bucketing_containment (tickers : List (String × List String))
    (articles : List ArticleRec) (i : Nat) (hi : i < tickers.length)
    (art : ArticleRec) :
    art ∈ ((buildBuckets tickers articles).getD i ("", [])).2 ↔
      art ∈ articles ∧
        anyAliasMatches ((tickers.getD i ("", [])).2) art = true := by
  rw [buildBuckets_eq, List.getD_eq_getElem?_getD, List.getElem?_map,
    List.getD_eq_getElem?_getD, List.getElem?_eq_getElem hi]
  simp only [Option.map_some, Option.getD_some]
  exact List.mem_filter

theorem bucketing_containment_witness :
    ((⟨"1", "Acme reports earnings", "", ""⟩ : ArticleRec) ∈
      ((buildBuckets [("ABC", ["Acme"])]
          [⟨"1", "Acme reports earnings", "", ""⟩,
           ⟨"2", "No relation", "", ""⟩]).getD 0 ("", [])).2) ∧
    ¬ ((⟨"2", "No relation", "", ""⟩ : ArticleRec) ∈
      ((buildBuckets [("ABC", ["Acme"])]
          [⟨"1", "Acme reports earnings", "", ""⟩,
           ⟨"2", "No relation", "", ""⟩]).getD 0 ("", [])).2) :=
  ⟨(bucketing_containment [("ABC", ["Acme"])]
      [⟨"1", "Acme reports earnings", "", ""⟩, ⟨"2", "No relation", "", ""⟩]
      0 (by decide) ⟨"1", "Acme reports earnings", "", ""⟩).mpr (by decide),
   fun h =>
    absurd ((bucketing_containment [("ABC", ["Acme"])]
      [⟨"1", "Acme reports earnings", "", ""⟩, ⟨"2", "No relation", "", ""⟩]
      0 (by decide) ⟨"2", "No relation", "", ""⟩).mp h).2 (by decide)⟩

/-- Claim C8, Per-topic truncation: the list of articles `build_user_msg`
formats is `articles[:maxPerTopic]` — at most `maxPerTopic` long and a
prefix of the bucket in the store's read order (no reordering) — the
source constant is 8, and with a cap of 2 and five matches exactly the
first two survive. -/
theorem per_topic_truncation (maxPerTopic : Nat) (arts : List ArticleRec) :
    (articles_for_prompt maxPerTopic arts).length ≤ maxPerTopic ∧
    (∃ rest, articles_for_prompt maxPerTopic arts ++ rest = arts) ∧
    MAX_ARTICLES_PER_TICKER = 8 ∧
    (∀ a1 a2 a3 a4 a5 : ArticleRec,
      articles_for_prompt 2 [a1, a2, a3, a4, a5] = [a1, a2]) := by
  refine ⟨?_, ⟨arts.drop maxPerTopic, ?_⟩, rfl, ?_⟩
  · simp only [articles_for_prompt, List.length_take]
    omega
  · simp [articles_for_prompt]
  · intro a1 a2 a3 a4 a5
    rfl

/-- Claim C9, Totality over missing text fields: an ingested entry is
stored as `storedRow`, whose title column is the empty string whenever
the entry lacks a title and whose summary column is the empty string
whenever the entry lacks a summary (each field independently), and every
article handed back by `fetch_recent_articles` carries its row's title
and summary with SQL NULL replaced by the empty string — matching and
message building never see an absent field. -/
theorem missing_text_totality (sha : String → String) (now : Int)
    (db : List Row) (u : String) (e : Entry)
    (h1 : db.any (fun r => r.id == article_id sha e.link) = false)
    (h2 : ¬ parse_datetime now e < now - MAX_AGE_HOURS * 3600) :
    (store_entry sha now db u e).1 = db ++ [storedRow sha now u e] ∧
    (e.title = none → (storedRow sha now u e).title = some "") ∧
    (e.summary = none → (storedRow sha now u e).summary = some "") ∧
    (∀ (db' : List Row) (since : Int) (a : ArticleRec),
      a ∈ fetch_recent_articles db' since →
        ∃ r ∈ db', a.title = r.title.getD "" ∧ a.summary = r.summary.getD "") := by
  refine ⟨?_, ?_, ?_, ?_⟩
  · rw [store_entry_insert sha now db u e h1 h2]
  · intro ht
    simp [storedRow, ht]
  · intro hs
    simp [storedRow, hs]
  · intro db' since a ha
    unfold fetch_recent_articles at ha
    obtain ⟨r, hr, hrel⟩ := List.mem_map.mp ha
    exact ⟨r, (List.mem_filter.mp hr).1, by rw [← hrel], by rw [← hrel]⟩

theorem missing_text_totality_witness :
    (store_entry (fun s => s) 86400 [] "f"
        ⟨"https://x/e", none, some "kept", some 86400, none⟩).1 =
      [] ++ [storedRow (fun s => s) 86400 "f"
        ⟨"https://x/e", none, some "kept", some 86400, none⟩] ∧
    ((⟨"https://x/e", none, some "kept", some 86400, none⟩ : Entry).title =
        none →
      (storedRow (fun s => s) 86400 "f"
        ⟨"https://x/e", none, some "kept", some 86400, none⟩).title = some "") ∧
    ((⟨"https://x/e", none, some "kept", some 86400, none⟩ : Entry).summary =
        none →
      (storedRow (fun s => s) 86400 "f"
        ⟨"https://x/e", none, some "kept", some 86400, none⟩).summary =
        some "") ∧
    (∀ (db' : List Row) (since : Int) (a : ArticleRec),
      a ∈ fetch_recent_articles db' since →
        ∃ r ∈ db', a.title = r.title.getD "" ∧ a.summary = r.summary.getD "") :=
  missing_text_totality (fun s => s) 86400 [] "f"
    ⟨"https://x/e", none, some "kept", some 86400, none⟩ rfl (by decide)

theorem containsSub_iff (n h : List Char) : containsSub n h = true ↔ n <:+: h := by
  induction h with
  | nil =>
    simp [containsSub, List.isEmpty_iff]
  | cons c t ih =>
    simp [containsSub, List.infix_cons_iff, ih, Bool.or_eq_true]

/-- Claim C10, Bucket-match text shape: the matched text is the title and
summary joined by exactly one space, lowercased — an alias of the form
"(title suffix) (summary prefix)" always matches across the boundary,
while gluing the fragments without the space fails on text where they
only meet at the boundary ("reportsearnings" vs "reports earnings"). -/
theorem match_text_shape :
    (∀ (tpre tsuf spre ssuf idp pb : String),
      aliasMatches (tsuf ++ " " ++ spre)
        ⟨idp, tpre ++ tsuf, spre ++ ssuf, pb⟩ = true) ∧
    aliasMatches "reportsearnings"
      ⟨"", "Acme reports", "earnings up", ""⟩ = false ∧
    aliasMatches "reports earnings"
      ⟨"", "Acme reports", "earnings up", ""⟩ = true := by
  refine ⟨?_, by decide, by decide⟩
  intro tpre tsuf spre ssuf idp pb
  rw [aliasMatches, containsSub_iff]
  simp only [match_text, pyLower, String.data_append, List.map_append]
  exact ⟨tpre.data.map Char.toLower, ssuf.data.map Char.toLower,
    by simp [List.append_assoc]⟩

